import Mathlib

/-!
Verification of the goodpack-server stock-ledger, price-ledger and
code-generation core against its natural-language specification.

The Go source is shallowly embedded:
* Go `float64` prices are modelled as `ℚ` (all the price arithmetic in the
  source is elementary: `+`, `/ 2`, comparisons, and the two-decimal rounding
  `float64(int(x*100+0.5))/100`, which on `ℚ` is truncation toward zero of
  `x*100 + 1/2` followed by division by 100);
* Go `int` counters are modelled as `ℤ`;
* Go strings that the code-generation logic indexes and slices are modelled as
  `List Char` (the stored codes are ASCII, where Go's byte indexing and
  character indexing agree);
* the Mongo / HTTP collaborators are modelled by explicit inputs: the looked-up
  entity arrives as an `Option`, and the success of each persistence write is an
  explicit `Bool` input, so a handler becomes a pure function from its inputs
  and collaborator outcomes to its response.
Clock-dependent logic (`time.Now()` in `Product.UpdatePrice`) receives the
current year and month as explicit arguments.
-/

namespace Goodpack

/-! ## Two-decimal rounding (models/product.go, `Product.UpdatePrice`)

The source rounds with `float64(int(x*100 + 0.5)) / 100`.  A Go conversion
from a floating-point value to `int` discards the fraction, truncating toward
zero, so the integer step is `⌊y⌋` for `0 ≤ y` and `⌈y⌉` for `y < 0`. -/

/-- Go's `int(y)` conversion on a numeric value: truncation toward zero. -/
def truncQ (x : ℚ) : ℤ := if 0 ≤ x then ⌊x⌋ else ⌈x⌉

/-- The rounding step of `Product.UpdatePrice`: `float64(int(x*100+0.5))/100`. -/
def round2 (x : ℚ) : ℚ := ((truncQ (x * 100 + 1/2) : ℤ) : ℚ) / 100

/-- Modelled from the spec: `round2(x) = floor(x*100 + 0.5) / 100`
(round-half-up on scaled integer cents), the rule the specification text
states for the two-decimal rounding.  Kept separate from `round2`, which is
translated from the source, so the two can be compared. -/
def round2Spec (x : ℚ) : ℚ := ((⌊x * 100 + 1/2⌋ : ℤ) : ℚ) / 100

/-! ## Data model (models/product.go) -/

/-- `PriceInfo`: price statistics for one bucket. -/
structure PriceInfo where
  latest : ℚ
  min : ℚ
  max : ℚ
  average : ℚ
  averageYTD : ℚ
  averageMTD : ℚ
  ytdCount : ℤ
  ytdTotal : ℚ
  ytdYear : ℤ
  mtdCount : ℤ
  mtdTotal : ℚ
  mtdMonth : ℤ
  mtdYear : ℤ
  deriving DecidableEq

/-- `TierPrice`: tier pricing entry for sales. -/
structure TierPrice where
  minQuantity : ℤ
  maxQuantity : Option ℤ
  price : PriceInfo
  wholesalePrice : ℚ
  deriving DecidableEq

/-- `Price`: the four price buckets plus sales tiers. -/
structure Price where
  purchaseVAT : PriceInfo
  purchaseNonVAT : PriceInfo
  saleVAT : PriceInfo
  saleNonVAT : PriceInfo
  salesTiers : List TierPrice
  deriving DecidableEq

/-- `StockInfo`: cumulative stock counters for one stock type. -/
structure StockInfo where
  purchased : ℤ
  sold : ℤ
  remaining : ℤ
  deriving DecidableEq

/-- `Stock`: VAT and non-VAT counters plus the physical count. -/
structure Stock where
  vat : StockInfo
  nonVAT : StockInfo
  actualStock : ℤ
  deriving DecidableEq

/-- `Product` (models/product.go).  `id` stands for the Mongo ObjectID hex
string; the `createdAt`/`updatedAt` timestamps are abstract instants. -/
structure Product where
  id : String
  skuId : String
  code : String
  name : String
  description : String
  color : String
  size : String
  category : String
  qrData : String
  imageUrl : Option String
  price : Price
  stock : Stock
  createdAt : ℤ
  updatedAt : ℤ
  deriving DecidableEq

/-- `StockAdjustmentType` ∈ {add, reduce}. -/
inductive StockAdjustmentType where
  | add
  | reduce
  deriving DecidableEq

/-- `StockType` ∈ {vat, nonvat, actualstock}. -/
inductive StockType where
  | vat
  | nonvat
  | actualstock
  deriving DecidableEq

/-- `SourceType` ∈ {purchase, sale, adjustment, migration}. -/
inductive SourceType where
  | purchase
  | sale
  | adjustment
  | migration
  deriving DecidableEq

/-! ## Stock ledger (handlers/stock_adjustment_handler.go, `ApplyStockAdjustment`) -/

/-- The mutation `ApplyStockAdjustment` performs on the selected `StockInfo`
(the VAT or non-VAT branch of the source): add touches `purchased` and
`remaining`, reduce touches `sold` and `remaining`. -/
def applyToStockInfo (si : StockInfo) (adjType : StockAdjustmentType) (quantity : ℤ) : StockInfo :=
  match adjType with
  | .add => { si with purchased := si.purchased + quantity, remaining := si.remaining + quantity }
  | .reduce => { si with sold := si.sold + quantity, remaining := si.remaining - quantity }

/-- `ApplyStockAdjustment`: the core stock mutation.  Negative results are
allowed everywhere — the source never clamps and never fails. -/
def applyStockAdjustment (product : Product) (adjType : StockAdjustmentType)
    (stockType : StockType) (quantity : ℤ) : Product :=
  if stockType = .actualstock then
    match adjType with
    | .add =>
      { product with stock := { product.stock with actualStock := product.stock.actualStock + quantity } }
    | .reduce =>
      { product with stock := { product.stock with actualStock := product.stock.actualStock - quantity } }
  else
    let si := if stockType = .vat then product.stock.vat else product.stock.nonVAT
    let si' := applyToStockInfo si adjType quantity
    let actual' :=
      match adjType with
      | .add => product.stock.actualStock + quantity
      | .reduce => product.stock.actualStock - quantity
    if stockType = .vat then
      { product with stock := { product.stock with vat := si', actualStock := actual' } }
    else
      { product with stock := { product.stock with nonVAT := si', actualStock := actual' } }

/-- The `StockInfo` that `ApplyStockAdjustment` selects for a vat/nonvat stock
type (the pointer choice in the source). -/
def stockInfoOf (product : Product) (stockType : StockType) : StockInfo :=
  if stockType = .vat then product.stock.vat else product.stock.nonVAT

/-- A product whose counters, prices and descriptive fields are all zero /
empty: the starting state of the specification's scenarios. -/
def zeroPriceInfo : PriceInfo :=
  { latest := 0, min := 0, max := 0, average := 0, averageYTD := 0, averageMTD := 0,
    ytdCount := 0, ytdTotal := 0, ytdYear := 0, mtdCount := 0, mtdTotal := 0,
    mtdMonth := 0, mtdYear := 0 }

/-- The all-zero stock record. -/
def zeroStock : Stock :=
  { vat := { purchased := 0, sold := 0, remaining := 0 },
    nonVAT := { purchased := 0, sold := 0, remaining := 0 },
    actualStock := 0 }

/-- A concrete product in the scenarios' starting state. -/
def zeroProduct : Product :=
  { id := "000000000000000000000000", skuId := "AB-0001", code := "AB-s/WH",
    name := "sample", description := "", color := "White", size := "s",
    category := "Bag", qrData := "", imageUrl := none,
    price := { purchaseVAT := zeroPriceInfo, purchaseNonVAT := zeroPriceInfo,
               saleVAT := zeroPriceInfo, saleNonVAT := zeroPriceInfo, salesTiers := [] },
    stock := zeroStock, createdAt := 0, updatedAt := 0 }

/-- Claim C1: for every product and every positive quantity q,
`ApplyStockAdjustment` with adjustmentType=add and stockType=vat increases the
product's vat.purchased by exactly q, vat.remaining by exactly q, and
stock.actualStock by exactly q — all three together. -/
theorem applyStockAdjustment_add_vat_increments (p : Product) (q : ℤ) (_hq : 0 < q) :
    (applyStockAdjustment p .add .vat q).stock.vat.purchased = p.stock.vat.purchased + q ∧
    (applyStockAdjustment p .add .vat q).stock.vat.remaining = p.stock.vat.remaining + q ∧
    (applyStockAdjustment p .add .vat q).stock.actualStock = p.stock.actualStock + q := by
  refine ⟨?_, ?_, ?_⟩ <;> simp [applyStockAdjustment, applyToStockInfo]

/-- Witness for C1: the theorem applied at `zeroProduct` and q = 10. -/
theorem applyStockAdjustment_add_vat_increments_witness :
    (0 : ℤ) < 10 ∧
    ((applyStockAdjustment zeroProduct .add .vat 10).stock.vat.purchased
        = zeroProduct.stock.vat.purchased + 10 ∧
      (applyStockAdjustment zeroProduct .add .vat 10).stock.vat.remaining
        = zeroProduct.stock.vat.remaining + 10 ∧
      (applyStockAdjustment zeroProduct .add .vat 10).stock.actualStock
        = zeroProduct.stock.actualStock + 10) :=
  ⟨by decide, applyStockAdjustment_add_vat_increments zeroProduct 10 (by decide)⟩

/-- Claim C2: from the all-zero product, add(vat,10) followed by
reduce(vat,15) yields purchased = 10, sold = 15, remaining = −5 and
actualStock = −5: the reduce step neither clamps the negative remaining to
zero nor fails (the ledger is a total function). -/
theorem scenarioB_add_then_reduce :
    (applyStockAdjustment (applyStockAdjustment zeroProduct .add .vat 10)
        .reduce .vat 15).stock.vat.purchased = 10 ∧
    (applyStockAdjustment (applyStockAdjustment zeroProduct .add .vat 10)
        .reduce .vat 15).stock.vat.sold = 15 ∧
    (applyStockAdjustment (applyStockAdjustment zeroProduct .add .vat 10)
        .reduce .vat 15).stock.vat.remaining = -5 ∧
    (applyStockAdjustment (applyStockAdjustment zeroProduct .add .vat 10)
        .reduce .vat 15).stock.actualStock = -5 := by
  refine ⟨?_, ?_, ?_, ?_⟩ <;>
    simp [applyStockAdjustment, applyToStockInfo, zeroProduct, zeroStock]

/-- Claim C10: every `ApplyStockAdjustment` call leaves the quantity
purchased − sold − remaining unchanged on both the VAT and the non-VAT
`StockInfo`; in particular the identity purchased − sold = remaining is
preserved whenever it held before the call. -/
theorem applyStockAdjustment_preserves_ledger_identity (p : Product)
    (adjType : StockAdjustmentType) (stockType : StockType) (q : ℤ) :
    (applyStockAdjustment p adjType stockType q).stock.vat.purchased -
        (applyStockAdjustment p adjType stockType q).stock.vat.sold -
        (applyStockAdjustment p adjType stockType q).stock.vat.remaining
      = p.stock.vat.purchased - p.stock.vat.sold - p.stock.vat.remaining ∧
    (applyStockAdjustment p adjType stockType q).stock.nonVAT.purchased -
        (applyStockAdjustment p adjType stockType q).stock.nonVAT.sold -
        (applyStockAdjustment p adjType stockType q).stock.nonVAT.remaining
      = p.stock.nonVAT.purchased - p.stock.nonVAT.sold - p.stock.nonVAT.remaining := by
  cases adjType <;> cases stockType <;>
    constructor <;> simp [applyStockAdjustment, applyToStockInfo] <;> ring

/-! ## Price ledger (models/product.go, `Product.UpdatePrice`) -/

/-- The update `Product.UpdatePrice` performs on the selected `PriceInfo`
bucket.  The source mutates one field at a time; here each field of the result
is given by the value it holds when the Go function returns.  The rounding
`round2` is applied to the average unconditionally (the source rounds after
the zero-average branch), and to the YTD/MTD averages only on the accumulate
branch (the reset branch stores the raw price). -/
def updatePriceInfo (info : PriceInfo) (newPrice : ℚ) (currentYear currentMonth : ℤ) :
    PriceInfo :=
  { latest := newPrice
    min := if info.min = 0 ∨ newPrice < info.min then newPrice else info.min
    max := if newPrice > info.max then newPrice else info.max
    average := round2 (if info.average = 0 then newPrice else (info.average + newPrice) / 2)
    averageYTD :=
      if info.ytdYear ≠ currentYear then newPrice
      else round2 ((info.ytdTotal + newPrice) / ((info.ytdCount + 1 : ℤ) : ℚ))
    ytdYear := if info.ytdYear ≠ currentYear then currentYear else info.ytdYear
    ytdCount := if info.ytdYear ≠ currentYear then 1 else info.ytdCount + 1
    ytdTotal := if info.ytdYear ≠ currentYear then newPrice else info.ytdTotal + newPrice
    averageMTD :=
      if info.mtdYear ≠ currentYear ∨ info.mtdMonth ≠ currentMonth then newPrice
      else round2 ((info.mtdTotal + newPrice) / ((info.mtdCount + 1 : ℤ) : ℚ))
    mtdYear := if info.mtdYear ≠ currentYear ∨ info.mtdMonth ≠ currentMonth then currentYear
      else info.mtdYear
    mtdMonth := if info.mtdYear ≠ currentYear ∨ info.mtdMonth ≠ currentMonth then currentMonth
      else info.mtdMonth
    mtdCount := if info.mtdYear ≠ currentYear ∨ info.mtdMonth ≠ currentMonth then 1
      else info.mtdCount + 1
    mtdTotal := if info.mtdYear ≠ currentYear ∨ info.mtdMonth ≠ currentMonth then newPrice
      else info.mtdTotal + newPrice }

/-- `Product.UpdatePrice`: selects the bucket by `(isPurchase, isVAT)` and
updates it.  `currentYear`/`currentMonth` stand for `time.Now()`. -/
def updatePrice (p : Product) (newPrice : ℚ) (isVAT isPurchase : Bool)
    (currentYear currentMonth : ℤ) : Product :=
  if isPurchase then
    if isVAT then
      { p with price := { p.price with
          purchaseVAT := updatePriceInfo p.price.purchaseVAT newPrice currentYear currentMonth } }
    else
      { p with price := { p.price with
          purchaseNonVAT := updatePriceInfo p.price.purchaseNonVAT newPrice currentYear currentMonth } }
  else
    if isVAT then
      { p with price := { p.price with
          saleVAT := updatePriceInfo p.price.saleVAT newPrice currentYear currentMonth } }
    else
      { p with price := { p.price with
          saleNonVAT := updatePriceInfo p.price.saleNonVAT newPrice currentYear currentMonth } }

/-- Claim C3: on a product with an empty price history,
`UpdatePrice(100, isVAT=true, isPurchase=true)` sets the purchaseVAT bucket to
latest = min = max = average = 100 with ytdCount = 1, and a second
`UpdatePrice(200, ...)` on the same bucket yields average = 150,
max = 200, min = 100 (the decaying two-point average).  The calls are taken
at year 2025, month 5. -/
theorem scenarioA_updatePrice_sequence :
    (updatePrice zeroProduct 100 true true 2025 5).price.purchaseVAT.latest = 100 ∧
    (updatePrice zeroProduct 100 true true 2025 5).price.purchaseVAT.min = 100 ∧
    (updatePrice zeroProduct 100 true true 2025 5).price.purchaseVAT.max = 100 ∧
    (updatePrice zeroProduct 100 true true 2025 5).price.purchaseVAT.average = 100 ∧
    (updatePrice zeroProduct 100 true true 2025 5).price.purchaseVAT.ytdCount = 1 ∧
    (updatePrice (updatePrice zeroProduct 100 true true 2025 5)
        200 true true 2025 5).price.purchaseVAT.average = 150 ∧
    (updatePrice (updatePrice zeroProduct 100 true true 2025 5)
        200 true true 2025 5).price.purchaseVAT.max = 200 ∧
    (updatePrice (updatePrice zeroProduct 100 true true 2025 5)
        200 true true 2025 5).price.purchaseVAT.min = 100 := by
  refine ⟨?_, ?_, ?_, ?_, ?_, ?_, ?_, ?_⟩ <;>
    norm_num [updatePrice, updatePriceInfo, round2, truncQ, zeroProduct, zeroPriceInfo]

/-- Claim C4, counterexample: the claim asserts that the rounding applied by
`UpdatePrice` equals `floor(x*100+0.5)/100` for every input x.  At
x = −3/500 (= −0.006) the code truncates `x*100+0.5 = −0.1` toward zero,
giving 0, while `floor` gives −1, so the spec formula yields −0.01: the two
disagree. -/
theorem round2_trunc_ne_floor_counterexample :
    round2 (-3/500) = 0 ∧ round2Spec (-3/500) = -1/100 ∧
    round2 (-3/500) ≠ round2Spec (-3/500) := by
  have h1 : round2 (-3/500) = 0 := by norm_num [round2, truncQ]
  have h2 : round2Spec (-3/500) = -1/100 := by norm_num [round2Spec]
  refine ⟨h1, h2, ?_⟩
  rw [h1, h2]
  norm_num

/-- Claim C4, amended: for every nonnegative input x, the rounding applied by
`UpdatePrice` to average, averageYTD and averageMTD equals
`floor(x*100 + 0.5)/100`, round-half-up on scaled integer cents.  (For
negative x, Go's `int` conversion truncates toward zero instead of flooring.) -/
theorem round2_eq_floor_of_nonneg (x : ℚ) (hx : 0 ≤ x) : round2 x = round2Spec x := by
  have h : (0 : ℚ) ≤ x * 100 + 1/2 := by positivity
  simp only [round2, round2Spec, truncQ]
  rw [if_pos h]

/-- Witness for the amended C4: the theorem applied at x = 2011/1000. -/
theorem round2_eq_floor_of_nonneg_witness :
    (0 : ℚ) ≤ 2011/1000 ∧ round2 (2011/1000) = round2Spec (2011/1000) :=
  ⟨by norm_num, round2_eq_floor_of_nonneg (2011/1000) (by norm_num)⟩

/-- Claim C5: `UpdatePrice` with isPurchase = true and isVAT = false mutates
only the purchaseNonVAT bucket: the saleVAT, saleNonVAT and purchaseVAT
buckets (and the sales tiers, the stock, and every non-price field of the
product) are unchanged. -/
theorem updatePrice_purchaseNonVAT_frame (p : Product) (v : ℚ) (y m : ℤ) :
    (updatePrice p v false true y m).price.saleVAT = p.price.saleVAT ∧
    (updatePrice p v false true y m).price.saleNonVAT = p.price.saleNonVAT ∧
    (updatePrice p v false true y m).price.purchaseVAT = p.price.purchaseVAT ∧
    (updatePrice p v false true y m).price.salesTiers = p.price.salesTiers ∧
    (updatePrice p v false true y m).stock = p.stock ∧
    (updatePrice p v false true y m).id = p.id ∧
    (updatePrice p v false true y m).skuId = p.skuId ∧
    (updatePrice p v false true y m).code = p.code ∧
    (updatePrice p v false true y m).name = p.name ∧
    (updatePrice p v false true y m).category = p.category := by
  refine ⟨?_, ?_, ?_, ?_, ?_, ?_, ?_, ?_, ?_, ?_⟩ <;> simp [updatePrice]

/-! ## Stock audit records (models/stock_adjustment.go) -/

/-- `StockAdjustment`: the immutable audit record.  The Mongo `_id` and the
`createdAt`/`createdBy` metadata play no role in the ledger logic and are
omitted. -/
structure StockAdjustment where
  productId : String
  productName : String
  skuId : String
  adjustmentType : StockAdjustmentType
  stockType : StockType
  quantity : ℤ
  beforeVATPurchased : ℤ
  beforeVATSold : ℤ
  beforeVATRemaining : ℤ
  beforeNonVATPurchased : ℤ
  beforeNonVATSold : ℤ
  beforeNonVATRemaining : ℤ
  beforeActualStock : ℤ
  afterVATPurchased : ℤ
  afterVATSold : ℤ
  afterVATRemaining : ℤ
  afterNonVATPurchased : ℤ
  afterNonVATSold : ℤ
  afterNonVATRemaining : ℤ
  afterActualStock : ℤ
  sourceType : SourceType
  sourceId : Option String
  sourceCode : Option String
  notes : Option String
  deriving DecidableEq

/-- `StockAdjustmentRequest`: the adjustment endpoint's request body.  The Go
enum types are string types, so an arbitrary decoded request carries arbitrary
strings; the handler validates them. -/
structure StockAdjustmentRequest where
  adjustmentType : String
  stockType : String
  quantity : ℤ
  notes : Option String
  deriving DecidableEq

/-- The handler's adjustment-type validation: `some` exactly on the strings
the source accepts. -/
def parseAdjType : String → Option StockAdjustmentType
  | "add" => some .add
  | "reduce" => some .reduce
  | _ => none

/-- The handler's stock-type validation. -/
def parseStockType : String → Option StockType
  | "vat" => some .vat
  | "nonvat" => some .nonvat
  | "actualstock" => some .actualstock
  | _ => none

/-- `StockAdjustmentRequest.ToStockAdjustment`: builds the audit record with
the before-snapshot taken from the current product state (after-snapshot still
zero). -/
def toStockAdjustment (adjType : StockAdjustmentType) (stockType : StockType)
    (quantity : ℤ) (notes : Option String) (product : Product) (sourceType : SourceType)
    (sourceId sourceCode : Option String) : StockAdjustment :=
  { productId := product.id, productName := product.name, skuId := product.skuId,
    adjustmentType := adjType, stockType := stockType, quantity := quantity,
    beforeVATPurchased := product.stock.vat.purchased,
    beforeVATSold := product.stock.vat.sold,
    beforeVATRemaining := product.stock.vat.remaining,
    beforeNonVATPurchased := product.stock.nonVAT.purchased,
    beforeNonVATSold := product.stock.nonVAT.sold,
    beforeNonVATRemaining := product.stock.nonVAT.remaining,
    beforeActualStock := product.stock.actualStock,
    afterVATPurchased := 0, afterVATSold := 0, afterVATRemaining := 0,
    afterNonVATPurchased := 0, afterNonVATSold := 0, afterNonVATRemaining := 0,
    afterActualStock := 0,
    sourceType := sourceType, sourceId := sourceId, sourceCode := sourceCode,
    notes := notes }

/-- `StockAdjustment.SetAfterValues`: copies the product's stock state into
the after-snapshot. -/
def setAfterValues (sa : StockAdjustment) (product : Product) : StockAdjustment :=
  { sa with
    afterVATPurchased := product.stock.vat.purchased,
    afterVATSold := product.stock.vat.sold,
    afterVATRemaining := product.stock.vat.remaining,
    afterNonVATPurchased := product.stock.nonVAT.purchased,
    afterNonVATSold := product.stock.nonVAT.sold,
    afterNonVATRemaining := product.stock.nonVAT.remaining,
    afterActualStock := product.stock.actualStock }

/-- `RecordStockChange` (stock_adjustment_handler.go): builds the audit record
for a change that has already been applied — before and after snapshots are
both taken from the passed (already mutated) product — and asks the
repository to persist it. -/
def recordStockChange (product : Product) (sourceType : SourceType)
    (sourceId sourceCode : Option String) (adjType : StockAdjustmentType)
    (stockType : StockType) (quantity : ℤ) (notes : Option String) : StockAdjustment :=
  setAfterValues
    (toStockAdjustment adjType stockType quantity notes product sourceType sourceId sourceCode)
    product

/-! ## Handler flows (stock_adjustment_handler.go, purchase_handler.go)

Each handler is embedded as a pure function of its inputs and of the outcome
of each persistence write (`updateOk`: the product `Update` call succeeds;
`auditOk` / `recordOk`: the audit `Create` call succeeds; `deleteOk`: the
audit `Delete` call succeeds). -/

/-- The handler's HTTP response, coarsened to the cases the source
distinguishes. -/
inductive AdjustResponse where
  | notFound
  | badRequest (msg : String)
  | serverError (msg : String)
  | ok (product : Product)
  deriving DecidableEq

/-- Outcome of `StockAdjustmentHandler.AdjustStock`: the response, whether the
updated product was persisted, whether the audit record was persisted, and the
audit record the handler tried to save. -/
structure AdjustStockOutcome where
  response : AdjustResponse
  productPersisted : Bool
  auditPersisted : Bool
  auditRecord : Option StockAdjustment
  deriving DecidableEq

/-- `StockAdjustmentHandler.AdjustStock`: validates, applies the adjustment,
persists the product (500 on failure), then saves the audit record — a
failure there is only logged and the handler still responds with the updated
product. -/
def adjustStock (productLookup : Option Product) (req : StockAdjustmentRequest)
    (updateOk auditOk : Bool) : AdjustStockOutcome :=
  match productLookup with
  | none => ⟨.notFound, false, false, none⟩
  | some product =>
    if req.quantity ≤ 0 then
      ⟨.badRequest "Quantity must be greater than 0", false, false, none⟩
    else
      match parseAdjType req.adjustmentType with
      | none => ⟨.badRequest "Invalid adjustment type", false, false, none⟩
      | some adjType =>
        match parseStockType req.stockType with
        | none => ⟨.badRequest "Invalid stock type", false, false, none⟩
        | some stockType =>
          let adjustment := toStockAdjustment adjType stockType req.quantity req.notes
            product .adjustment none none
          let product' := applyStockAdjustment product adjType stockType req.quantity
          if updateOk then
            let adjustment' := setAfterValues adjustment product'
            -- the audit write is attempted; its failure is only logged
            ⟨.ok product', true, auditOk, some adjustment'⟩
          else
            ⟨.serverError "Failed to update product stock", false, false, none⟩

/-- `StockAdjustmentType` flip used by `DeleteStockAdjustment`: add ↔ reduce. -/
def reverseAdjustmentType : StockAdjustmentType → StockAdjustmentType
  | .add => .reduce
  | .reduce => .add

/-- `StockAdjustmentHandler.DeleteStockAdjustment`: looks up the adjustment
and the product, re-applies the adjustment with the type flipped to the
current product state, persists the product, deletes the audit record. -/
def deleteStockAdjustment (adjustmentLookup : Option StockAdjustment)
    (productLookup : Option Product) (updateOk deleteOk : Bool) : AdjustResponse :=
  match adjustmentLookup with
  | none => .notFound
  | some adjustment =>
    match productLookup with
    | none => .serverError "Product not found"
    | some product =>
      let product' := applyStockAdjustment product
        (reverseAdjustmentType adjustment.adjustmentType) adjustment.stockType
        adjustment.quantity
      if updateOk then
        if deleteOk then .ok product'
        else .serverError "Failed to delete stock adjustment"
      else .serverError "Failed to update product stock"

/-- Outcome of one item of `PurchaseHandler.updateProductData`. -/
structure PurchaseItemOutcome where
  productPersisted : Bool
  persistedProduct : Option Product
  auditPersisted : Bool
  err : Option String
  deriving DecidableEq

/-- One iteration of the loop in `PurchaseHandler.updateProductData`: update
the purchase price, add the purchased quantity to the VAT or non-VAT stock,
persist the product (skipping the item on failure), then record the stock
change — a recording failure is only logged.  The function never returns an
error. -/
def updateProductDataItem (productLookup : Option Product) (isVAT : Bool)
    (unitPrice : ℚ) (quantity : ℤ) (currentYear currentMonth : ℤ)
    (purchaseId purchaseCode : String) (updateOk recordOk : Bool) : PurchaseItemOutcome :=
  match productLookup with
  | none => ⟨false, none, false, none⟩
  | some product =>
    let product1 := updatePrice product unitPrice isVAT true currentYear currentMonth
    let stockType := if isVAT then StockType.vat else StockType.nonvat
    let product2 := applyStockAdjustment product1 .add stockType quantity
    if updateOk then
      -- the audit write is attempted; its failure is only logged
      let _record := recordStockChange product2 .purchase (some purchaseId)
        (some purchaseCode) .add stockType quantity (some purchaseCode)
      ⟨true, some product2, recordOk, none⟩
    else
      ⟨false, none, false, none⟩

/-- Claim C9: when the audit write fails after a stock mutation, the failure
is only logged.  In `AdjustStock` (with a found product, a valid request and a
successful product write) the outcome with a failed audit write still persists
the updated product and responds with it; in `updateProductData` the item
still persists the product and the function reports no error. -/
theorem audit_failure_not_propagated (p : Product) (req : StockAdjustmentRequest)
    (adjType : StockAdjustmentType) (stockType : StockType)
    (isVAT : Bool) (unitPrice : ℚ) (quantity currentYear currentMonth : ℤ)
    (purchaseId purchaseCode : String)
    (hq : 0 < req.quantity)
    (ha : parseAdjType req.adjustmentType = some adjType)
    (hs : parseStockType req.stockType = some stockType) :
    (adjustStock (some p) req true false).response
        = .ok (applyStockAdjustment p adjType stockType req.quantity) ∧
    (adjustStock (some p) req true false).productPersisted = true ∧
    (adjustStock (some p) req true false).auditPersisted = false ∧
    (updateProductDataItem (some p) isVAT unitPrice quantity currentYear currentMonth
        purchaseId purchaseCode true false).productPersisted = true ∧
    (updateProductDataItem (some p) isVAT unitPrice quantity currentYear currentMonth
        purchaseId purchaseCode true false).err = none := by
  have hq' : ¬ req.quantity ≤ 0 := by omega
  refine ⟨?_, ?_, ?_, ?_, ?_⟩ <;>
    simp [adjustStock, updateProductDataItem, hq', ha, hs]

/-- Witness for C9: the theorem applied at `zeroProduct` and a concrete valid
request. -/
theorem audit_failure_not_propagated_witness :
    (0 : ℤ) < 5 ∧ parseAdjType "add" = some .add ∧ parseStockType "vat" = some .vat ∧
    ((adjustStock (some zeroProduct) ⟨"add", "vat", 5, none⟩ true false).response
        = .ok (applyStockAdjustment zeroProduct .add .vat 5) ∧
      (adjustStock (some zeroProduct) ⟨"add", "vat", 5, none⟩ true false).productPersisted
        = true ∧
      (adjustStock (some zeroProduct) ⟨"add", "vat", 5, none⟩ true false).auditPersisted
        = false ∧
      (updateProductDataItem (some zeroProduct) true 7 5 2025 5 "pid" "PUR-VAT-6805-0001"
          true false).productPersisted = true ∧
      (updateProductDataItem (some zeroProduct) true 7 5 2025 5 "pid" "PUR-VAT-6805-0001"
          true false).err = none) :=
  ⟨by decide, by decide, by decide,
    audit_failure_not_propagated zeroProduct ⟨"add", "vat", 5, none⟩ .add .vat
      true 7 5 2025 5 "pid" "PUR-VAT-6805-0001" (by decide) (by decide) (by decide)⟩

/-- Claim C6: `DeleteStockAdjustment` reverses a recorded adjustment by
re-applying `ApplyStockAdjustment` with the adjustment type flipped and the
same quantity and stock type to the current product state; for a vat or
nonvat adjustment of type add, this composition restores `remaining` and
`actualStock` to their pre-adjustment values, but the cumulative `purchased`
and `sold` counters each end up increased by the quantity. -/
theorem deleteStockAdjustment_reversal (adj : StockAdjustment) (p : Product)
    (hty : adj.adjustmentType = .add)
    (hst : adj.stockType = .vat ∨ adj.stockType = .nonvat) :
    deleteStockAdjustment (some adj)
        (some (applyStockAdjustment p .add adj.stockType adj.quantity)) true true
      = .ok (applyStockAdjustment
          (applyStockAdjustment p .add adj.stockType adj.quantity)
          .reduce adj.stockType adj.quantity) ∧
    (stockInfoOf (applyStockAdjustment
          (applyStockAdjustment p .add adj.stockType adj.quantity)
          .reduce adj.stockType adj.quantity) adj.stockType).remaining
      = (stockInfoOf p adj.stockType).remaining ∧
    (applyStockAdjustment (applyStockAdjustment p .add adj.stockType adj.quantity)
        .reduce adj.stockType adj.quantity).stock.actualStock
      = p.stock.actualStock ∧
    (stockInfoOf (applyStockAdjustment
          (applyStockAdjustment p .add adj.stockType adj.quantity)
          .reduce adj.stockType adj.quantity) adj.stockType).purchased
      = (stockInfoOf p adj.stockType).purchased + adj.quantity ∧
    (stockInfoOf (applyStockAdjustment
          (applyStockAdjustment p .add adj.stockType adj.quantity)
          .reduce adj.stockType adj.quantity) adj.stockType).sold
      = (stockInfoOf p adj.stockType).sold + adj.quantity := by
  rcases hst with hst | hst <;>
    refine ⟨?_, ?_, ?_, ?_, ?_⟩ <;>
      simp [deleteStockAdjustment, reverseAdjustmentType, hty, hst,
        applyStockAdjustment, applyToStockInfo, stockInfoOf]

/-- A concrete audit record, used to witness the reversal theorem. -/
def sampleAdjustment : StockAdjustment :=
  setAfterValues
    (toStockAdjustment .add .vat 10 none zeroProduct .adjustment none none)
    (applyStockAdjustment zeroProduct .add .vat 10)

/-- Witness for C6: the theorem applied at `sampleAdjustment` and
`zeroProduct`. -/
theorem deleteStockAdjustment_reversal_witness :
    sampleAdjustment.adjustmentType = .add ∧
    (sampleAdjustment.stockType = .vat ∨ sampleAdjustment.stockType = .nonvat) ∧
    (deleteStockAdjustment (some sampleAdjustment)
        (some (applyStockAdjustment zeroProduct .add sampleAdjustment.stockType
          sampleAdjustment.quantity)) true true
      = .ok (applyStockAdjustment
          (applyStockAdjustment zeroProduct .add sampleAdjustment.stockType
            sampleAdjustment.quantity)
          .reduce sampleAdjustment.stockType sampleAdjustment.quantity) ∧
    (stockInfoOf (applyStockAdjustment
          (applyStockAdjustment zeroProduct .add sampleAdjustment.stockType
            sampleAdjustment.quantity)
          .reduce sampleAdjustment.stockType sampleAdjustment.quantity)
        sampleAdjustment.stockType).remaining
      = (stockInfoOf zeroProduct sampleAdjustment.stockType).remaining ∧
    (applyStockAdjustment (applyStockAdjustment zeroProduct .add
          sampleAdjustment.stockType sampleAdjustment.quantity)
        .reduce sampleAdjustment.stockType sampleAdjustment.quantity).stock.actualStock
      = zeroProduct.stock.actualStock ∧
    (stockInfoOf (applyStockAdjustment
          (applyStockAdjustment zeroProduct .add sampleAdjustment.stockType
            sampleAdjustment.quantity)
          .reduce sampleAdjustment.stockType sampleAdjustment.quantity)
        sampleAdjustment.stockType).purchased
      = (stockInfoOf zeroProduct sampleAdjustment.stockType).purchased
          + sampleAdjustment.quantity ∧
    (stockInfoOf (applyStockAdjustment
          (applyStockAdjustment zeroProduct .add sampleAdjustment.stockType
            sampleAdjustment.quantity)
          .reduce sampleAdjustment.stockType sampleAdjustment.quantity)
        sampleAdjustment.stockType).sold
      = (stockInfoOf zeroProduct sampleAdjustment.stockType).sold
          + sampleAdjustment.quantity) :=
  ⟨rfl, Or.inl rfl,
    deleteStockAdjustment_reversal sampleAdjustment zeroProduct rfl (Or.inl rfl)⟩

/-! ## Sequential transaction codes (repository, `GetNextSequenceNumber`)

Stored codes are modelled as `List Char`.  The repository's Mongo query —
filter by a case-insensitive anchored regex on the code field, sort the code
field descending, limit 1 — is modelled by filtering the stored codes,
sorting them descending under bytewise lexicographic order, and taking the
head. -/

/-- Bytewise lexicographic order on codes (the order Mongo sorts strings
by, restricted to the ASCII codes this system generates). -/
def lexLe : List Char → List Char → Bool
  | [], _ => true
  | _ :: _, [] => false
  | a :: as, b :: bs => if a < b then true else if b < a then false else lexLe as bs

/-- Anchored literal-pattern matching: the first list is an initial run of the
second. -/
def isPfxOf : List Char → List Char → Bool
  | [], _ => true
  | _ :: _, [] => false
  | a :: as, b :: bs => a = b && isPfxOf as bs

/-- The query filter `{$regex: "^" + pattern, $options: "i"}` for a literal
pattern: case-insensitive anchored match. -/
def ciMatchesPfx (pat code : List Char) : Bool :=
  isPfxOf (pat.map Char.toLower) (code.map Char.toLower)

/-- Insertion into a descending-sorted list. -/
def insertDesc (c : List Char) : List (List Char) → List (List Char)
  | [] => [c]
  | d :: ds => if lexLe d c then c :: d :: ds else d :: insertDesc c ds

/-- Descending sort, modelling the query's `sort(code: -1)`. -/
def sortDesc (l : List (List Char)) : List (List Char) := l.foldr insertDesc []

/-- The lexicographically greatest element of a list of codes. -/
def maxCode? : List (List Char) → Option (List Char)
  | [] => none
  | c :: cs =>
    match maxCode? cs with
    | none => some c
    | some m => if lexLe m c then some c else some m

/-- Decimal value of a digit list (most significant first). -/
def digitsVal (l : List Char) : ℕ :=
  l.foldl (fun acc c => acc * 10 + (c.toNat - '0'.toNat)) 0

/-- A nonempty all-digit list parses to its value, anything else fails. -/
def parseDigits? (l : List Char) : Option ℕ :=
  if l ≠ [] ∧ l.all Char.isDigit then some (digitsVal l) else none

/-- Go's `strconv.Atoi`: an optional sign followed by at least one digit. -/
def atoi? : List Char → Option ℤ
  | '+' :: rest => (parseDigits? rest).map fun n => (n : ℤ)
  | '-' :: rest => (parseDigits? rest).map fun n => -(n : ℤ)
  | s => (parseDigits? s).map fun n => (n : ℤ)

/-- Go's `code[len(code)-n:]`: the last `n` characters. -/
def takeLast (n : ℕ) (l : List Char) : List Char := l.drop (l.length - n)

/-- `PurchaseRepository.GetNextSequenceNumber` (translated from the source):
filter the stored codes by the case-insensitive anchored pattern, sort
descending and take the first; if it is nonempty and at least 4 characters
long, parse its trailing 4 characters and return the value plus one; in every
other case return 1. -/
def getNextSequenceNumber (codes : List (List Char)) (pat : List Char) : ℤ :=
  match (sortDesc (codes.filter fun c => ciMatchesPfx pat c)).head? with
  | none => 1
  | some lastCode =>
    if lastCode ≠ [] then
      if 4 ≤ lastCode.length then
        match atoi? (takeLast 4 lastCode) with
        | some seq => seq + 1
        | none => 1
      else 1
    else 1

/-- The integer denoted by the trailing 4 characters of a code (defined when
the code has at least 4 characters and they parse). -/
def trailingSeq? (c : List Char) : Option ℤ :=
  if 4 ≤ c.length then atoi? (takeLast 4 c) else none

/-- Modelled from the spec: `GetNextSequenceNumber` returns s+1 where s is
parsed from the trailing 4 characters of the lexicographically greatest
stored code matching the pattern case-insensitively, and 1 when no code
matches or the trailing characters do not parse. -/
def getNextSeqSpec (codes : List (List Char)) (pat : List Char) : ℤ :=
  match maxCode? (codes.filter fun c => ciMatchesPfx pat c) with
  | none => 1
  | some m =>
    match trailingSeq? m with
    | some s => s + 1
    | none => 1

theorem head_insertDesc (c : List Char) (l : List (List Char)) :
    (insertDesc c l).head? =
      some (match l.head? with
        | none => c
        | some d => if lexLe d c then c else d) := by
  cases l with
  | nil => rfl
  | cons d ds =>
    by_cases h : lexLe d c = true <;> simp [insertDesc, h]

theorem head_sortDesc (l : List (List Char)) : (sortDesc l).head? = maxCode? l := by
  induction l with
  | nil => rfl
  | cons c cs ih =>
    show (insertDesc c (sortDesc cs)).head? = _
    rw [head_insertDesc]
    rw [ih]
    cases h : maxCode? cs with
    | none => simp [maxCode?, h]
    | some m =>
      by_cases hm : lexLe m c = true <;> simp [maxCode?, h, hm]

/-- Claim C7: `GetNextSequenceNumber` computes s+1 from the trailing 4
characters of the lexicographically greatest stored code matching the
pattern case-insensitively, and returns 1 when no stored code matches or the
trailing characters of the matched code do not parse as an integer. -/
theorem getNextSequenceNumber_correct (codes : List (List Char)) (pat : List Char) :
    getNextSequenceNumber codes pat = getNextSeqSpec codes pat := by
  unfold getNextSequenceNumber getNextSeqSpec
  rw [head_sortDesc]
  cases h : maxCode? (codes.filter fun c => ciMatchesPfx pat c) with
  | none => rfl
  | some m =>
    by_cases hlen : 4 ≤ m.length
    · have hne : m ≠ [] := by
        intro e
        rw [e] at hlen
        simp at hlen
      simp only [trailingSeq?, if_pos hlen, hne, if_true, ne_eq, not_false_eq_true]
    · have h1 : trailingSeq? m = none := by simp [trailingSeq?, hlen]
      dsimp only
      rw [h1]
      by_cases he : m = [] <;> simp [he, hlen]

/-! ## SKU generation (utils SKUGenerator, config ConfigLoader) -/

/-- A configured category (config_loader.go): Thai name, English name,
abbreviation. -/
structure CategoryItem where
  name : List Char
  english : List Char
  abbreviation : List Char
  deriving DecidableEq

/-- Lowercase a code character-wise (Go `strings.ToLower` on the ASCII data
this system handles). -/
def toLowerL (s : List Char) : List Char := s.map Char.toLower

/-- Uppercase a code character-wise. -/
def toUpperL (s : List Char) : List Char := s.map Char.toUpper

/-- The configured-table scan of `GetCategoryAbbreviation`: first item whose
lowercased `name` or `english` equals the lowercased query wins. -/
def lookupCategory : List CategoryItem → List Char → Option (List Char)
  | [], _ => none
  | item :: rest, nameLower =>
    if toLowerL item.name = nameLower ∨ toLowerL item.english = nameLower then
      some item.abbreviation
    else lookupCategory rest nameLower

/-- Go `strings.Fields`: split around runs of whitespace.  `acc` holds the
current word reversed. -/
def splitFieldsAux : List Char → List Char → List (List Char)
  | [], acc => if acc = [] then [] else [acc.reverse]
  | c :: cs, acc =>
    if c.isWhitespace then
      if acc = [] then splitFieldsAux cs []
      else acc.reverse :: splitFieldsAux cs []
    else splitFieldsAux cs (c :: acc)

/-- Go `strings.Fields`. -/
def splitFields (s : List Char) : List (List Char) := splitFieldsAux s []

/-- The derived fallback of `GetCategoryAbbreviation`: a single-word category
abbreviates to its first 3 characters uppercased (the whole name when
shorter); a multi-word category to the uppercased first characters of its
words, truncated to 3. -/
def deriveCategoryAbbrev (categoryName : List Char) : List Char :=
  let words := splitFields categoryName
  if words.length = 1 then
    if 3 ≤ categoryName.length then toUpperL (categoryName.take 3)
    else toUpperL categoryName
  else
    let ab := words.foldl
      (fun acc w => match w with | [] => acc | c :: _ => acc ++ [c.toUpper]) []
    if 3 < ab.length then ab.take 3 else ab

/-- `ConfigLoader.GetCategoryAbbreviation`: configured abbreviation when the
name matches, derived abbreviation otherwise. -/
def getCategoryAbbreviation (categories : List CategoryItem) (categoryName : List Char) :
    List Char :=
  match lookupCategory categories (toLowerL categoryName) with
  | some ab => ab
  | none => deriveCategoryAbbrev categoryName

/-- An uppercase ASCII letter, the character class of the SKU pattern. -/
def isUpperAZ (c : Char) : Bool := 'A' ≤ c && c ≤ 'Z'

/-- `SKUGenerator.ParseSKUID`: match against `^([A-Z]{2,3})-(\d{4})$` and
return the letter part and the numeric part.  The initial maximal run of
uppercase letters must have length 2 or 3 and be followed by a dash and
exactly 4 digits. -/
def parseSKUID? (sku : List Char) : Option (List Char × ℕ) :=
  let letters := sku.takeWhile isUpperAZ
  if letters.length = 2 ∨ letters.length = 3 then
    match sku.drop letters.length with
    | '-' :: ds =>
      if ds.length = 4 ∧ ds.all Char.isDigit then some (letters, digitsVal ds) else none
    | _ => none
  else none

/-- `SKUGenerator.GetNextSKUNumber`: scan the existing SKUs, keeping the
largest parsed number whose letter part equals the category's abbreviation. -/
def getNextSKUNumber (categories : List CategoryItem) (category : List Char)
    (existingSKUs : List (List Char)) : ℕ :=
  let categoryAbbrev := getCategoryAbbreviation categories category
  existingSKUs.foldl
    (fun maxNumber sku =>
      match parseSKUID? sku with
      | none => maxNumber
      | some (parsedCategory, number) =>
        if parsedCategory = categoryAbbrev ∧ maxNumber < number then number
        else maxNumber)
    0

/-- Go `fmt.Sprintf("%04d", n)` for a nonnegative n: decimal digits padded
with zeros to width 4. -/
def pad4 (n : ℕ) : List Char :=
  let ds := Nat.toDigits 10 n
  List.replicate (4 - ds.length) '0' ++ ds

/-- `SKUGenerator.GenerateSKUID`: abbreviation, dash, `lastNumber + 1`
zero-padded to 4 digits. -/
def generateSKUID (categories : List CategoryItem) (category : List Char)
    (lastNumber : ℕ) : List Char :=
  getCategoryAbbreviation categories category ++ '-' :: pad4 (lastNumber + 1)

/-- Modelled from the spec: the maximum parsed sequence among existing SKUs
whose letter part equals the abbreviation, 0 when none match. -/
def skuMaxSpec (ab : List Char) (skus : List (List Char)) : ℕ :=
  (((skus.filterMap parseSKUID?).filter fun pr => pr.1 = ab).map Prod.snd).foldr max 0

theorem foldl_skuStep_eq_max (ab : List Char) (skus : List (List Char)) :
    ∀ a : ℕ,
      skus.foldl
        (fun maxNumber sku =>
          match parseSKUID? sku with
          | none => maxNumber
          | some (parsedCategory, number) =>
            if parsedCategory = ab ∧ maxNumber < number then number
            else maxNumber)
        a
      = max a (skuMaxSpec ab skus) := by
  induction skus with
  | nil => intro a; simp [skuMaxSpec]
  | cons x xs ih =>
    intro a
    rw [List.foldl_cons, ih]
    cases hx : parseSKUID? x with
    | none => simp [skuMaxSpec, List.filterMap_cons, hx]
    | some pr =>
      obtain ⟨c, n⟩ := pr
      by_cases hc : c = ab
      · have hstep :
            (match some (c, n) with
              | none => a
              | some (parsedCategory, number) =>
                if parsedCategory = ab ∧ a < number then number else a) = max a n := by
          simp only [hc, true_and]
          rw [Nat.max_def]
          split_ifs <;> omega
        rw [hstep]
        have hspec : skuMaxSpec ab (x :: xs) = max n (skuMaxSpec ab xs) := by
          simp [skuMaxSpec, List.filterMap_cons, hx, hc]
        rw [hspec, Nat.max_assoc]
      · have hstep :
            (match some (c, n) with
              | none => a
              | some (parsedCategory, number) =>
                if parsedCategory = ab ∧ a < number then number else a) = a := by
          simp [hc]
        rw [hstep]
        have hspec : skuMaxSpec ab (x :: xs) = skuMaxSpec ab xs := by
          simp [skuMaxSpec, List.filterMap_cons, hx, hc]
        rw [hspec]

/-- Configuration used by the concrete SKU scenario: one category named
widgets with abbreviation ABC. -/
def demoCategories : List CategoryItem :=
  [{ name := "widgets".toList, english := "widgets".toList, abbreviation := "ABC".toList }]

/-- The existing SKUs of the concrete scenario: two for ABC with maximum
sequence 42, one for another abbreviation, and two that fail the pattern. -/
def demoSKUs : List (List Char) :=
  ["ABC-0042".toList, "ABC-0007".toList, "XY-9999".toList,
    "ABCD-0001".toList, "AB-12".toList]

/-- Claim C8: `GetNextSKUNumber` returns the maximum sequence parsed by the
strict pattern `^([A-Z]{2,3})-(\d{4})$` among SKUs whose letter part equals
the category's abbreviation (0 when none match), and `GenerateSKUID` returns
the abbreviation, a dash, and `lastNumber + 1` zero-padded to 4 digits; in
particular, with maximum existing sequence 42 for abbreviation ABC, the next
number is 42 and the generated SKU is "ABC-0043". -/
theorem sku_generation_correct :
    (∀ (categories : List CategoryItem) (category : List Char)
        (skus : List (List Char)),
      getNextSKUNumber categories category skus
        = skuMaxSpec (getCategoryAbbreviation categories category) skus) ∧
    getNextSKUNumber demoCategories ("widgets".toList) demoSKUs = 42 ∧
    generateSKUID demoCategories ("widgets".toList) 42 = "ABC-0043".toList := by
  refine ⟨?_, ?_, ?_⟩
  · intro categories category skus
    rw [getNextSKUNumber, foldl_skuStep_eq_max]
    simp
  · decide
  · decide

end Goodpack
